import Mathlib

/-!
Verification of the golem-herder core: the container lifecycle orchestrator
(package `container`) and the usage-metering ledger (package `metering`).

The Go code is embedded shallowly:
* the bolt-backed ledger becomes an association list from identity to a
  `Bucket` record holding the two integer fields stored under the keys
  `MillisecondsRemaining` and `MillisecondsUsed` (the stored values are the
  `strconv.Itoa` images of these integers, and `strconv.Atoi` recovers them);
* the docker client becomes an explicit environment record whose fields give
  the outcome of each runtime call (pull, create, list, start, inspect, kill,
  remove, HTTP fetch, file write); each orchestration function becomes a pure
  function of that environment, returning its result together with the trace
  of container-mutating calls it issued where that matters.
-/

/-! ## Usage Ledger — metering/meter.go -/

/-- One bolt bucket per identity, holding the two stored counters. -/
structure Bucket where
  MillisecondsRemaining : Int
  MillisecondsUsed : Int

/-- The bolt database: one bucket per identity, keyed by the identity string. -/
abbrev MeterDB := List (String × Bucket)

/-- Look up the bucket of an identity (`tx.Bucket([]byte(id))`). -/
def getBucket : MeterDB → String → Option Bucket
  | [], _ => none
  | (k, b) :: rest, id => if k = id then some b else getBucket rest id

/-- Store a bucket under an existing identity (the `b.Put` pair inside one
`db.Update` transaction; only ever reached when the bucket exists). -/
def putBucket : MeterDB → String → Bucket → MeterDB
  | [], _, _ => []
  | (k, b0) :: rest, id, b =>
    if k = id then (id, b) :: rest else (k, b0) :: putBucket rest id b

/-- The handle returned by `NewMeter`. -/
structure Meter where
  ID : String

/-- `NewMeter(id, remainingMs)`: inside one transaction, `CreateBucket` is
attempted; when it succeeds the two counters are initialised, and when it
fails (bucket already exists) the error is discarded and nothing is written.
The callback returns nil either way, so the returned error is always none. -/
def NewMeter (db : MeterDB) (id : String) (remainingMs : Int) :
    MeterDB × Meter × Option String :=
  let db2 :=
    match getBucket db id with
    | some _ => db
    | none => (id, { MillisecondsRemaining := remainingMs, MillisecondsUsed := 0 }) :: db
  (db2, { ID := id }, none)

/-- `Meter.MillisecondsRemaining()`: the `db.View` callback reads the stored
remaining balance into `msr`, but then falls through to an unconditional
`return fmt.Errorf("Could not get time remaining")`; the outer function
therefore always takes its error branch. The embedding mirrors that shape:
`msr` is computed, the callback result is unconditionally the error, and the
final match on the callback result decides what is returned. -/
def MillisecondsRemaining (db : MeterDB) (id : String) : Except String Int :=
  let msr : Int :=
    match getBucket db id with
    | some b => b.MillisecondsRemaining
    | none => 0
  let viewErr : Option String := some "Could not get time remaining"
  match viewErr with
  | some e => Except.error e
  | none => Except.ok msr

/-- `Meter.RecordMilliseconds(ms)`: one `db.Update` transaction that reads the
remaining balance, rejects when it is already non-positive, and otherwise
writes both updated counters before the transaction commits. -/
def RecordMilliseconds (db : MeterDB) (id : String) (ms : Int) :
    MeterDB × Option String :=
  match getBucket db id with
  | some b =>
    if b.MillisecondsRemaining ≤ 0 then
      (db, some "Could not record time - no time left")
    else
      (putBucket db id
        { MillisecondsRemaining := b.MillisecondsRemaining - ms,
          MillisecondsUsed := b.MillisecondsUsed + ms }, none)
  | none => (db, some "Could not update for given id")

/-! ## Predicate Filter — container package -/

/-- The docker container descriptor fields read by the predicates. -/
structure APIContainers where
  ID : String
  Names : List String
  Labels : List (String × String)
  State : String

/-- `WithName(name)`: matches when some alias equals "/" ++ name. -/
def WithName (name : String) (container : APIContainers) : Bool :=
  container.Names.any fun containerName => containerName == "/" ++ name

/-- The filtering loop of `List(client, matches, all)`: keep the descriptors
the predicate accepts, in the runtime's order. (Named `ListMatching` here
because `List` is taken.) -/
def ListMatching (containers : List APIContainers)
    (accepted : APIContainers → Bool) : List APIContainers :=
  containers.filter accepted

/-! ## Lifecycle Orchestrator — run / Kill / RunDaemonized -/

/-- The handle `run` returns (`*docker.Container`). -/
structure DockerContainer where
  ID : String

/-- Outcomes of the docker-client calls `run` makes, fixed per run. -/
structure RunEnv where
  pullErr : Option String
  createRes : Except String DockerContainer
  listErr : Option String
  allContainers : List APIContainers
  startErr : String → Option String
  inspectRes : String → Except String DockerContainer

/-- The tail of `run` after a container ID has been resolved: start it
(failure is fatal), then inspect it; an inspection failure is swallowed and
the handle from creation time (nil in the recovery path) is returned with a
nil error. -/
def startAndInspect (env : RunEnv) (containerFromCreate : Option DockerContainer)
    (containerID : String) : Except String (Option DockerContainer) :=
  match env.startErr containerID with
  | some e => Except.error e
  | none =>
    match env.inspectRes containerID with
    | Except.ok c => Except.ok (some c)
    | Except.error _ => Except.ok containerFromCreate

/-- `run(client, name, ..., restart)`: pull the image (failure fatal), attempt
creation; on creation failure either propagate (restart not requested) or look
up exactly one existing container with the exact name among all containers and
adopt its ID; then start and inspect. The result is the returned handle, which
is nil exactly when creation failed, recovery adopted an ID, and the final
inspection failed. -/
def run (env : RunEnv) (name : String) (restart : Bool) :
    Except String (Option DockerContainer) :=
  match env.pullErr with
  | some e => Except.error e
  | none =>
    match env.createRes with
    | Except.ok container => startAndInspect env (some container) container.ID
    | Except.error e =>
      if restart then
        match env.listErr with
        | some le => Except.error le
        | none =>
          match ListMatching env.allContainers (WithName name) with
          | [c] => startAndInspect env none c.ID
          | _ => Except.error ("Could not create nor find container with name " ++ name)
      else Except.error e

/-- Outcomes of the docker-client calls `Kill` makes. -/
structure KillEnv where
  clientErr : Option String
  listErr : Option String
  runningContainers : List APIContainers
  killErr : String → Option String
  removeErr : String → Option String

/-- The container-mutating docker calls issued by `Kill`, in order. -/
inductive DockerAction where
  | killContainer (id : String)
  | removeContainer (id : String) (force : Bool) (removeVolumes : Bool)

/-- `Kill(matcher, removeContainer, destroyData)`: list the non-exited
containers, fail when the matcher does not select exactly one, otherwise kill
the single match and, when requested, force-remove it (destroying volumes only
when `destroyData`). Returned alongside the error is the trace of kill/remove
calls issued. -/
def Kill (env : KillEnv) (matcher : APIContainers → Bool)
    (removeWanted destroyData : Bool) : Option String × List DockerAction :=
  match env.clientErr with
  | some e => (some e, [])
  | none =>
    match env.listErr with
    | some e => (some e, [])
    | none =>
      match ListMatching env.runningContainers matcher with
      | [c] =>
        (match env.killErr c.ID with
         | some e => (some e, [DockerAction.killContainer c.ID])
         | none =>
           if removeWanted then
             match env.removeErr c.ID with
             | some e =>
               (some e, [DockerAction.killContainer c.ID,
                         DockerAction.removeContainer c.ID true destroyData])
             | none =>
               (none, [DockerAction.killContainer c.ID,
                       DockerAction.removeContainer c.ID true destroyData])
           else (none, [DockerAction.killContainer c.ID]))
      | cs => (some ("Expected 1 container to match name, got " ++ toString cs.length), [])

/-- Evaluation of a Go map literal: a later entry with the same key overwrites
the earlier one. -/
def mapInsert (m : List (String × String)) (k v : String) : List (String × String) :=
  if m.any fun p => p.1 == k then
    m.map fun p => if p.1 == k then (k, v) else p
  else m ++ [(k, v)]

/-- The `mounts` map literal built by `RunDaemonized`: both entries key on the
same `hostdir`, so the literal evaluates the first entry ("/" ++ name) and then
overwrites it with the second ("/minion"). -/
def daemonMounts (hostdir name : String) : List (String × String) :=
  mapInsert (mapInsert [] hostdir ("/" ++ name)) hostdir "/minion"

/-! ## File Loader — LoadFiles -/

/-- `strings.HasPrefix` over the characters of the two strings. -/
def charsHavePrefix : List Char → List Char → Bool
  | _, [] => true
  | [], _ :: _ => false
  | c :: s, p :: ps => c == p && charsHavePrefix s ps

/-- `strings.HasPrefix(s, pre)`. -/
def strHasPrefix (s pre : String) : Bool :=
  charsHavePrefix s.data pre.data

/-- Outcomes of the network and filesystem calls `LoadFiles` makes.
`parseOK content` says whether `url.Parse(content)` succeeded; `fetch`
gives the result of `http.DefaultClient.Do` for a URL, where an error means
the returned response pointer is nil; `write` gives the `ioutil.WriteFile`
error for a name/content pair. -/
structure LoadEnv where
  parseOK : String → Bool
  fetch : String → Except String String
  write : String → String → Option String

/-- What one URL-fetching goroutine does to its entry. -/
inductive TaskOutcome where
  | wrote (name : String)
  | writeFailed (name : String)
  | panicked

/-- The body of the per-URL goroutine in `LoadFiles`: on a fetch error the
response is nil and the deferred `response.Body.Close()` dereferences it, so
the goroutine panics (which kills the whole process); on success the fetched
body is written, and a write failure is only logged. -/
def fetchTask (env : LoadEnv) (name content : String) : TaskOutcome :=
  match env.fetch content with
  | Except.error _ => TaskOutcome.panicked
  | Except.ok fetchedContent =>
    match env.write name fetchedContent with
    | some _ => TaskOutcome.writeFailed name
    | none => TaskOutcome.wrote name

/-- Result of a `LoadFiles` batch: either the process crashed because a
goroutine panicked, or the function returned an error value together with the
names written so far. -/
inductive LoadResult where
  | crashed
  | ret (err : Option String) (written : List String)

/-- The entry loop of `LoadFiles` (one schedule: each spawned goroutine runs
at its spawn point). A value that parses as a URL and starts with "http" is
handed to `fetchTask`; any other value is written synchronously, and a write
failure there returns the error immediately, abandoning the rest of the
batch. -/
def LoadFilesGo (env : LoadEnv) :
    List (String × String) → List String → LoadResult
  | [], written => LoadResult.ret none written.reverse
  | (name, content) :: rest, written =>
    if env.parseOK content && strHasPrefix content "http" then
      match fetchTask env name content with
      | TaskOutcome.panicked => LoadResult.crashed
      | TaskOutcome.wrote n => LoadFilesGo env rest (n :: written)
      | TaskOutcome.writeFailed _ => LoadFilesGo env rest written
    else
      match env.write name content with
      | some e => LoadResult.ret (some e) written.reverse
      | none => LoadFilesGo env rest (name :: written)

/-- `LoadFiles(dir, files)` over the environment above. -/
def LoadFiles (env : LoadEnv) (files : List (String × String)) : LoadResult :=
  LoadFilesGo env files []

/-! ## Concrete fixtures used by scenario theorems and witnesses -/

/-- Ledger state after `NewMeter("u1", 1000)` on a fresh store. -/
def u1db1 : MeterDB := (NewMeter [] "u1" 1000).1

/-- Ledger state after the subsequent `RecordMilliseconds("u1", 200)`. -/
def u1db2 : MeterDB := (RecordMilliseconds u1db1 "u1" 200).1

/-- Ledger state after the further `RecordMilliseconds("u1", 900)`. -/
def u1db3 : MeterDB := (RecordMilliseconds u1db2 "u1" 900).1

/-- A run environment whose creation step fails while one exited container
with the exact name exists. -/
def c5env : RunEnv :=
  { pullErr := none
    createRes := Except.error "name conflict"
    listErr := none
    allContainers := [{ ID := "abc", Names := ["/golem"], Labels := [], State := "exited" }]
    startErr := fun _ => none
    inspectRes := fun id => Except.ok { ID := id } }

/-- A run environment where creation and start succeed but inspection fails. -/
def c6env : RunEnv :=
  { pullErr := none
    createRes := Except.ok { ID := "cid1" }
    listErr := none
    allContainers := []
    startErr := fun _ => none
    inspectRes := fun _ => Except.error "inspect failed" }

/-- A kill environment with exactly one running container named golem. -/
def c7env : KillEnv :=
  { clientErr := none
    listErr := none
    runningContainers := [{ ID := "k1", Names := ["/golem"], Labels := [], State := "running" }]
    killErr := fun _ => none
    removeErr := fun _ => none }

/-- A loader environment where every fetch fails (nil response) and every
write succeeds. -/
def c8env : LoadEnv :=
  { parseOK := fun _ => true
    fetch := fun _ => Except.error "connection refused"
    write := fun _ _ => none }

/-! ## Theorems -/

theorem getBucket_putBucket (db : MeterDB) (id : String) (b0 b : Bucket)
    (h : getBucket db id = some b0) : getBucket (putBucket db id b) id = some b := by
  induction db with
  | nil => simp [getBucket] at h
  | cons p rest ih =>
    obtain ⟨k, bv⟩ := p
    by_cases hk : k = id
    · simp [getBucket, putBucket, hk]
    · simp only [getBucket, putBucket, hk, if_neg, if_false] at h ⊢
      exact ih h

/-- C1: for an identity with an existing ledger entry, `RecordMilliseconds`
returns an error and leaves the store untouched when the stored remaining
balance is ≤ 0, and when it is > 0 it succeeds, replacing the entry with both
fields updated in one step (remaining decremented by ms, used incremented by
ms) — there is no intermediate store in which only one field changed. -/
theorem recordMilliseconds_atomic (db : MeterDB) (id : String) (ms : Int) (b : Bucket)
    (h : getBucket db id = some b) :
    (b.MillisecondsRemaining ≤ 0 →
      RecordMilliseconds db id ms = (db, some "Could not record time - no time left")) ∧
    (0 < b.MillisecondsRemaining →
      RecordMilliseconds db id ms =
        (putBucket db id
          { MillisecondsRemaining := b.MillisecondsRemaining - ms,
            MillisecondsUsed := b.MillisecondsUsed + ms }, none) ∧
      getBucket (RecordMilliseconds db id ms).1 id =
        some { MillisecondsRemaining := b.MillisecondsRemaining - ms,
               MillisecondsUsed := b.MillisecondsUsed + ms }) := by
  constructor
  · intro hle
    simp [RecordMilliseconds, h, hle]
  · intro hpos
    have hnle : ¬ b.MillisecondsRemaining ≤ 0 := not_le.mpr hpos
    refine ⟨by simp [RecordMilliseconds, h, hnle], ?_⟩
    simp only [RecordMilliseconds, h, if_neg hnle]
    exact getBucket_putBucket db id b _ h

theorem recordMilliseconds_atomic_witness :
    getBucket [("u1", { MillisecondsRemaining := 5, MillisecondsUsed := 0 })] "u1" =
      some { MillisecondsRemaining := 5, MillisecondsUsed := 0 } ∧
    (0 : Int) < 5 ∧
    RecordMilliseconds [("u1", { MillisecondsRemaining := 5, MillisecondsUsed := 0 })]
      "u1" 2 = ([("u1", { MillisecondsRemaining := 3, MillisecondsUsed := 2 })], none) := by
  refine ⟨rfl, by decide, ?_⟩
  have h := (recordMilliseconds_atomic
    [("u1", { MillisecondsRemaining := 5, MillisecondsUsed := 0 })] "u1" 2
    { MillisecondsRemaining := 5, MillisecondsUsed := 0 } rfl).2 (by decide)
  rw [h.1]
  rfl

/-- C2: from a fresh store, `NewMeter("u1", 1000)` then
`RecordMilliseconds("u1", 200)` leaves the stored entry at remaining 800 and
used 200; the further `RecordMilliseconds("u1", 900)` succeeds (the pre-check
only sees the prior balance 800) and leaves remaining −100 (used 1100); and
every further `RecordMilliseconds` call for u1 then fails with the
out-of-time error, leaving the store unchanged. -/
theorem ledger_scenario :
    getBucket u1db2 "u1" =
      some { MillisecondsRemaining := 800, MillisecondsUsed := 200 } ∧
    (RecordMilliseconds u1db2 "u1" 900).2 = none ∧
    getBucket u1db3 "u1" =
      some { MillisecondsRemaining := -100, MillisecondsUsed := 1100 } ∧
    ∀ ms : Int,
      (RecordMilliseconds u1db3 "u1" ms).2 = some "Could not record time - no time left" ∧
      (RecordMilliseconds u1db3 "u1" ms).1 = u1db3 :=
  ⟨rfl, rfl, rfl, fun _ => ⟨rfl, rfl⟩⟩

/-- C3 (code bug): `MillisecondsRemaining` is claimed to return the stored
balance without error when the entry exists, but the `db.View` callback ends
in an unconditional `return fmt.Errorf(...)`, so even for an identity whose
entry exists (here u1 with stored balance 1000) the call returns the error. -/
theorem millisecondsRemaining_always_errors :
    getBucket u1db1 "u1" =
      some { MillisecondsRemaining := 1000, MillisecondsUsed := 0 } ∧
    MillisecondsRemaining u1db1 "u1" =
      Except.error "Could not get time remaining" :=
  ⟨rfl, rfl⟩

/-- C4 (code bug): `RunDaemonized` is documented to mount the host directory
at the name-scoped path, and the inline comment says it is "also" mounted at
/minion, but the map literal keys both entries on `hostdir`, so the second
entry overwrites the first: for name "golem" the mount map holds only the
destination /minion, and /golem is absent. -/
theorem daemonMounts_single_destination :
    daemonMounts "/srv/mounts/golem" "golem" = [("/srv/mounts/golem", "/minion")] ∧
    ("/golem" ∈ (daemonMounts "/srv/mounts/golem" "golem").map Prod.snd) = False := by
  refine ⟨rfl, ?_⟩
  simp [daemonMounts, mapInsert]

/-- C5: when creation fails, `run` propagates the failure if restart-recovery
was not requested; with recovery requested it lists all containers (including
non-running ones) matching the exact name, fails with the
"Could not create nor find" error when the match count is not exactly one, and
otherwise adopts the single match's ID and proceeds to start and inspect it. -/
theorem run_create_failure_recovery (env : RunEnv) (name : String) (e : String)
    (hpull : env.pullErr = none) (hcreate : env.createRes = Except.error e) :
    run env name false = Except.error e ∧
    (env.listErr = none →
      (ListMatching env.allContainers (WithName name)).length ≠ 1 →
      run env name true =
        Except.error ("Could not create nor find container with name " ++ name)) ∧
    (∀ c, env.listErr = none →
      ListMatching env.allContainers (WithName name) = [c] →
      run env name true = startAndInspect env none c.ID) := by
  refine ⟨by simp [run, hpull, hcreate], ?_, ?_⟩
  · intro hlist hlen
    rcases hl : ListMatching env.allContainers (WithName name) with _ | ⟨c, rest⟩
    · simp [run, hpull, hcreate, hlist, hl]
    · rcases rest with _ | ⟨c2, rest2⟩
      · exact absurd (by rw [hl]; rfl) hlen
      · simp [run, hpull, hcreate, hlist, hl]
  · intro c hlist hl
    simp [run, hpull, hcreate, hlist, hl]

theorem run_create_failure_recovery_witness :
    c5env.pullErr = none ∧
    c5env.createRes = Except.error "name conflict" ∧
    run c5env "golem" true = startAndInspect c5env none "abc" := by
  refine ⟨rfl, rfl, ?_⟩
  exact (run_create_failure_recovery c5env "golem" "name conflict" rfl rfl).2.2
    { ID := "abc", Names := ["/golem"], Labels := [], State := "exited" } rfl rfl

/-- C6: whenever the start step succeeds and the final inspection fails, `run`
returns a nil error together with the handle obtained at creation time: the
created container in the normal path, and the nil handle in the recovery path
(where no creation-time handle exists) — the inspection error is never
propagated. -/
theorem run_inspect_failure_returns_handle (env : RunEnv) (name : String)
    (restart : Bool) (ie : String) :
    (∀ c, env.pullErr = none → env.createRes = Except.ok c →
      env.startErr c.ID = none → env.inspectRes c.ID = Except.error ie →
      run env name restart = Except.ok (some c)) ∧
    (∀ e c, env.pullErr = none → env.createRes = Except.error e → restart = true →
      env.listErr = none → ListMatching env.allContainers (WithName name) = [c] →
      env.startErr c.ID = none → env.inspectRes c.ID = Except.error ie →
      run env name restart = Except.ok none) := by
  constructor
  · intro c hpull hcreate hstart hinspect
    simp [run, startAndInspect, hpull, hcreate, hstart, hinspect]
  · intro e c hpull hcreate hrestart hlist hl hstart hinspect
    simp [run, startAndInspect, hpull, hcreate, hrestart, hlist, hl, hstart, hinspect]

theorem run_inspect_failure_returns_handle_witness :
    run c6env "golem" false = Except.ok (some { ID := "cid1" }) :=
  (run_inspect_failure_returns_handle c6env "golem" false "inspect failed").1
    { ID := "cid1" } rfl rfl rfl rfl

/-- C7: `Kill` fails and issues no kill or remove call whenever the set of
non-exited containers matching the predicate does not have exactly one
element; when exactly one matches, it kills that container and, if removal was
requested, force-removes it, destroying volumes only when requested. -/
theorem kill_exactly_one (env : KillEnv) (matcher : APIContainers → Bool)
    (removeWanted destroyData : Bool) :
    ((ListMatching env.runningContainers matcher).length ≠ 1 →
      (Kill env matcher removeWanted destroyData).2 = [] ∧
      (Kill env matcher removeWanted destroyData).1.isSome = true) ∧
    (∀ c, env.clientErr = none → env.listErr = none →
      ListMatching env.runningContainers matcher = [c] →
      env.killErr c.ID = none → env.removeErr c.ID = none →
      Kill env matcher removeWanted destroyData =
        (none, DockerAction.killContainer c.ID ::
          (if removeWanted then [DockerAction.removeContainer c.ID true destroyData]
           else []))) := by
  constructor
  · intro hlen
    rcases hce : env.clientErr with _ | e
    · rcases hle : env.listErr with _ | e
      · rcases hl : ListMatching env.runningContainers matcher with _ | ⟨c, rest⟩
        · simp [Kill, hce, hle, hl]
        · rcases rest with _ | ⟨c2, rest2⟩
          · exact absurd (by rw [hl]; rfl) hlen
          · simp [Kill, hce, hle, hl]
      · simp [Kill, hce, hle]
    · simp [Kill, hce]
  · intro c hclient hlist hl hkill hremove
    cases removeWanted <;> simp [Kill, hclient, hlist, hl, hkill, hremove]

theorem kill_exactly_one_witness :
    Kill c7env (WithName "golem") true true =
      (none, [DockerAction.killContainer "k1",
              DockerAction.removeContainer "k1" true true]) := by
  have h := (kill_exactly_one c7env (WithName "golem") true true).2
    { ID := "k1", Names := ["/golem"], Labels := [], State := "running" }
    rfl rfl rfl rfl rfl
  simpa using h

/-- C8 (code bug): a failing fetch for the URL-backed entry b.txt is claimed
to be logged and skipped without affecting the literal entry a.txt, but in the
fetch goroutine a failed `Do` leaves the response nil and the deferred
`response.Body.Close()` dereferences it, so the goroutine panics and the whole
process crashes: on the batch [b.txt ↦ http URL, a.txt ↦ "hello"] with the
fetch failing, the run crashes and a.txt is never written (while a literal
write failure does abort the batch with an error, as the loop structure
shows). -/
theorem loadFiles_fetch_failure_crashes :
    fetchTask c8env "b.txt" "http://unreachable/x" = TaskOutcome.panicked ∧
    LoadFiles c8env [("b.txt", "http://unreachable/x"), ("a.txt", "hello")] =
      LoadResult.crashed :=
  ⟨rfl, rfl⟩

/-- C9: `WithName(n)` matches a descriptor exactly when one of its name
aliases is the string "/" followed by n; in particular it never matches on a
partial or unprefixed name. -/
theorem withName_exact_match (n : String) (d : APIContainers) :
    WithName n d = true ↔ ∃ a ∈ d.Names, a = "/" ++ n := by
  simp [WithName, List.any_eq_true, beq_iff_eq]

/-- C10: calling `NewMeter` again for an identity that already has a ledger
entry returns a Meter handle with a nil error and leaves the store — in
particular that entry's two counters — unchanged: the bucket-creation
conflict is silently discarded. -/
theorem newMeter_existing_preserves (db : MeterDB) (id : String) (r : Int) (b : Bucket)
    (h : getBucket db id = some b) :
    NewMeter db id r = (db, { ID := id }, none) := by
  simp [NewMeter, h]

theorem newMeter_existing_preserves_witness :
    getBucket [("u1", { MillisecondsRemaining := 7, MillisecondsUsed := 1 })] "u1" =
      some { MillisecondsRemaining := 7, MillisecondsUsed := 1 } ∧
    NewMeter [("u1", { MillisecondsRemaining := 7, MillisecondsUsed := 1 })] "u1" 42 =
      ([("u1", { MillisecondsRemaining := 7, MillisecondsUsed := 1 })],
        { ID := "u1" }, none) :=
  ⟨rfl, newMeter_existing_preserves _ "u1" 42
    { MillisecondsRemaining := 7, MillisecondsUsed := 1 } rfl⟩
